import Mathlib

/-!
Shallow embedding of snakemake-software-deployment-plugin-spack
(src/snakemake_software_deployment_plugin_spack/__init__.py).

Modelling conventions:
- File contents are byte lists (`List Nat`); the in-process filesystem is a
  partial map from path strings to contents.
- Python exceptions are an `Except PyError _` result.
- `os.environ.get("SPACK_ROOT")` is an `Option String` parameter; a Python
  f-string renders `None` as the literal text "None".
- YAML values are a small inductive covering the shapes PyYAML produces
  (string keys only, which is all the plugin ever looks up).
- Reading a file opened in text mode and re-encoding as UTF-8
  (`f.read().encode("utf-8")`) translates universal newlines: CRLF and lone
  CR become LF at the byte level (valid UTF-8 assumed, where the
  decode/encode round trip is otherwise the identity).
- The regex escape d is modelled as an ASCII digit; the claims and the
  descriptor data in question are ASCII.
-/

/-- Python exception kinds surfaced by the plugin code paths. -/
inductive PyError where
  | fileNotFound
  | attributeError
  | typeError
  | calledProcessError
  | yamlError
deriving DecidableEq, Repr

/-- A parsed YAML value as produced by yaml.safe_load (string keys only). -/
inductive Yaml where
  | null
  | bool (b : Bool)
  | int (n : Int)
  | str (s : String)
  | list (items : List Yaml)
  | map (entries : List (String × Yaml))

/-- In-process filesystem: path to raw file bytes. -/
def FileSystem : Type := String → Option (List Nat)

/-- open(path) followed by read: missing file raises FileNotFoundError
(an IOError subclass). -/
def pyOpenRead (fs : FileSystem) (path : String) : Except PyError (List Nat) :=
  match fs path with
  | none => Except.error PyError.fileNotFound
  | some bs => Except.ok bs

/-- Byte-level effect of text-mode read plus encode("utf-8") on valid UTF-8
input: universal-newline translation (CRLF and lone CR become LF; CR is 13,
LF is 10; UTF-8 continuation bytes never equal 13, so byte-level rewriting
agrees with the character-level one). -/
def universalNewlines : List Nat → List Nat
  | [] => []
  | [b] => [if b = 13 then 10 else b]
  | b :: c :: rest =>
    if b = 13 then
      if c = 10 then 10 :: universalNewlines rest
      else 10 :: universalNewlines (c :: rest)
    else b :: universalNewlines (c :: rest)

/-- Python str(None) / f-string interpolation of an optional string. -/
def pyFormatOptStr : Option String → String
  | none => "None"
  | some s => s

/-- Env.get_spack_env_yaml: f-string building
SPACK_ROOT/var/spack/environments/envName/spack.yaml, where SPACK_ROOT is
os.environ.get("SPACK_ROOT") (None interpolates as "None"). -/
def get_spack_env_yaml (spackRoot : Option String) (envName : String) : String :=
  pyFormatOptStr spackRoot ++ "/var/spack/environments/" ++ envName ++ "/spack.yaml"

/-- The incremental hash accumulator (hashlib object): update appends bytes. -/
structure HashObject where
  data : List Nat
deriving DecidableEq, Repr

/-- hash_object.update(bytes). -/
def HashObject.update (h : HashObject) (bs : List Nat) : HashObject :=
  ⟨h.data ++ bs⟩

/-- Env.record_hash: opens the descriptor in text mode, reads it, and feeds
read().encode("utf-8") to the accumulator. -/
def record_hash (fs : FileSystem) (spackRoot : Option String) (envName : String)
    (hashObject : HashObject) : Except PyError HashObject :=
  match pyOpenRead fs (get_spack_env_yaml spackRoot envName) with
  | Except.error e => Except.error e
  | Except.ok bs => Except.ok (hashObject.update (universalNewlines bs))

/-- dict.get(key, default): AttributeError when the receiver is not a dict. -/
def pyGet (v : Yaml) (key : String) (default : Yaml) : Except PyError Yaml :=
  match v with
  | Yaml.map entries => Except.ok ((entries.lookup key).getD default)
  | _ => Except.error PyError.attributeError

/-- Python iteration over a YAML value: lists yield items, strings yield
single-character strings, dicts yield their keys, anything else raises
TypeError. -/
def pyIterYaml : Yaml → Except PyError (List Yaml)
  | Yaml.list items => Except.ok items
  | Yaml.str s => Except.ok (s.data.map (fun c => Yaml.str (String.mk [c])))
  | Yaml.map entries => Except.ok (entries.map (fun kv => Yaml.str kv.1))
  | _ => Except.error PyError.typeError

/-- pattern.match(spec) raises TypeError unless spec is a str. -/
def pyAsStr : Yaml → Except PyError String
  | Yaml.str s => Except.ok s
  | _ => Except.error PyError.typeError

/-- re.match of the source regex with groups name then version, anchored at
the start of the string. Group one is one or more characters other than at
sign and caret; group two is one or more digits or dots. Both classes are
greedy and, because group one cannot contain the at sign that must follow it
and nothing follows group two, the regex matches exactly when the maximal
run of non-at-sign non-caret characters is nonempty, is followed by an at
sign, and the at sign is followed by a nonempty run of digits or dots. -/
def matchSpec (s : String) : Option (String × String) :=
  let cs := s.data
  let name := cs.takeWhile (fun c => c != '@' && c != '^')
  match cs.drop name.length with
  | '@' :: rest =>
      let ver := rest.takeWhile (fun c => c.isDigit || c == '.')
      if name.isEmpty || ver.isEmpty then none
      else some (String.mk name, String.mk ver)
  | _ => none

/-- A (name, version) software report entry. -/
structure SoftwareReport where
  name : String
  version : String
deriving DecidableEq, Repr

/-- The report entry produced from one spec string, when the regex matches. -/
def SoftwareReport.ofSpec (s : String) : Option SoftwareReport :=
  (matchSpec s).map (fun p => ⟨p.1, p.2⟩)

/-- The loop body of Env.report_software after yaml.safe_load:
env_data.get("spack", dict()).get("specs", list()) is iterated, each item is
matched against the regex, and matching items append an entry in order. A
non-str item raises TypeError, discarding the whole result. -/
def extract_reports (envData : Yaml) : Except PyError (List SoftwareReport) :=
  match pyGet envData "spack" (Yaml.map []) with
  | Except.error e => Except.error e
  | Except.ok spackVal =>
    match pyGet spackVal "specs" (Yaml.list []) with
    | Except.error e => Except.error e
    | Except.ok specsVal =>
      match pyIterYaml specsVal with
      | Except.error e => Except.error e
      | Except.ok items =>
        match items.mapM pyAsStr with
        | Except.error e => Except.error e
        | Except.ok specStrs => Except.ok (specStrs.filterMap SoftwareReport.ofSpec)

/-- Env.report_software: open and read the descriptor, parse it with
yaml.safe_load (the external parser is a parameter receiving the text-mode
bytes), then extract the report list. -/
def report_software (fs : FileSystem) (parseYaml : List Nat → Except PyError Yaml)
    (spackRoot : Option String) (envName : String) :
    Except PyError (List SoftwareReport) :=
  match pyOpenRead fs (get_spack_env_yaml spackRoot envName) with
  | Except.error e => Except.error e
  | Except.ok bs =>
    match parseYaml (universalNewlines bs) with
    | Except.error e => Except.error e
    | Except.ok envData => extract_reports envData

/-- Env.decorate_shellcmd: f-string prefixing the activation command. -/
def decorate_shellcmd (envName cmd : String) : String :=
  "spack env activate " ++ envName ++ " && " ++ cmd

/-- The configuration error raised to the caller. -/
inductive WorkflowError where
  | workflowError (msg : String)
deriving DecidableEq, Repr

/-- The validated environment specification record. -/
structure EnvSpec where
  envName : String
deriving DecidableEq, Repr

/-- Dataclass construction of EnvSpec including its post-init hook: a missing
envName raises WorkflowError. -/
def EnvSpec.make (envName : Option String) : Except WorkflowError EnvSpec :=
  match envName with
  | none => Except.error (WorkflowError.workflowError "Exactly one of envName must be set.")
  | some n => Except.ok ⟨n⟩

/-- EnvSpec.identity_attributes: the generator yields the single name
"envName". -/
def EnvSpec.identity_attributes : List String := ["envName"]

/-- EnvSpec.source_path_attributes: the Python body consists solely of the
Ellipsis expression, so the call returns None rather than any iterable. -/
def EnvSpec.source_path_attributes : Option (List String) := none

/-- Python iteration over the value returned by source_path_attributes:
iterating None raises TypeError. -/
def pyIterList : Option (List String) → Except PyError (List String)
  | none => Except.error PyError.typeError
  | some xs => Except.ok xs

/-- subprocess.CompletedProcess: stdout is None because run is invoked
without capturing output. -/
structure CompletedProcess where
  returncode : Int
  stdout : Option (List Nat)
deriving DecidableEq, Repr

/-- subprocess.run(cmd, shell=True, check=True): check raises
CalledProcessError on a nonzero exit status; stdout is not captured. -/
def subprocessRun (exitCode : Int) : Except PyError CompletedProcess :=
  if exitCode = 0 then Except.ok ⟨0, none⟩ else Except.error PyError.calledProcessError

/-- Env.run_cmd (renamed, since its source name is a Lean keyword): runs the
command through the shell (the exit status of each command line is a
parameter) and returns process.stdout. -/
def runCmd (shellExitCode : String → Int) (cmd : String) :
    Except PyError (Option (List Nat)) :=
  match subprocessRun (shellExitCode cmd) with
  | Except.error e => Except.error e
  | Except.ok p => Except.ok p.stdout

/-- State of the run-once machinery around Env.check. The decorator
EnvBase.once is external to this repository; per the in-source comment it
ensures the decorated method is only called once in case multiple
environments of the same kind are created, so the done flag is shared by all
handles of the kind while run counts are tracked per handle. -/
structure OnceState where
  numHandles : Nat
  checkDone : Bool
  runs : List Nat
deriving DecidableEq, Repr

/-- No handles constructed yet; the check has never run. -/
def initialOnceState : OnceState := ⟨0, false, []⟩

/-- One invocation of check() on handle i: the body runs only when the
kind-level flag is still clear, and then sets it. -/
def callCheck (s : OnceState) (i : Nat) : OnceState :=
  if s.checkDone then s
  else { s with checkDone := true, runs := s.runs.set i (s.runs.getD i 0 + 1) }

/-- Observable events: constructing a handle (whose post-init hook invokes
check() on it) and an explicit later check() invocation on handle i. -/
inductive SpackEvent where
  | createHandle
  | invokeCheck (i : Nat)
deriving DecidableEq, Repr

/-- Transition relation of the handle population and the run-once check. -/
def stepEnv (s : OnceState) : SpackEvent → OnceState
  | SpackEvent.createHandle =>
      callCheck { s with numHandles := s.numHandles + 1, runs := s.runs ++ [0] } s.numHandles
  | SpackEvent.invokeCheck i => if i < s.numHandles then callCheck s i else s

/-- Run a whole event trace from the initial state. -/
def runEnv (events : List SpackEvent) : OnceState :=
  events.foldl stepEnv initialOnceState

/-- The exact run-count table for a population of n handles of one kind:
the first handle carries the single execution, every later handle none. -/
def onceRuns : Nat → List Nat
  | 0 => []
  | n + 1 => 1 :: List.replicate n 0

/-- Reachability invariant: the flag is set exactly when a handle exists, and
the run counts are a single one followed by zeros. -/
def OnceInv (s : OnceState) : Prop :=
  s.checkDone = decide (0 < s.numHandles) ∧ s.runs = onceRuns s.numHandles

/-- Newline translation is the identity on byte lists without a carriage
return. -/
theorem universalNewlines_of_no_cr (bs : List Nat) (h : 13 ∉ bs) :
    universalNewlines bs = bs := by
  induction bs with
  | nil => rfl
  | cons b t ih =>
    have hb : b ≠ 13 := by
      intro hb
      exact h (hb ▸ List.mem_cons_self b t)
    have ht : 13 ∉ t := fun hmem => h (List.mem_cons_of_mem b hmem)
    cases t with
    | nil =>
      simp only [universalNewlines, if_neg hb]
    | cons c rest =>
      simp only [universalNewlines, if_neg hb]
      exact congrArg (List.cons b) (ih ht)

/-- C2: decorate_shellcmd returns exactly the activation command, the
environment name, a shell conjunction, and the original command concatenated
with no escaping or quoting; in particular decorating "echo hi" for name
"foo" yields "spack env activate foo && echo hi". -/
theorem decorate_shellcmd_eq (envName cmd : String) :
    decorate_shellcmd envName cmd = "spack env activate " ++ envName ++ " && " ++ cmd
    ∧ decorate_shellcmd "foo" "echo hi" = "spack env activate foo && echo hi" :=
  ⟨rfl, rfl⟩

/-- C7: constructing an EnvSpec without a name raises WorkflowError,
constructing with a name succeeds, and identity_attributes yields exactly
the single attribute name "envName". -/
theorem envSpec_construction_and_identity :
    EnvSpec.make none
        = Except.error (WorkflowError.workflowError "Exactly one of envName must be set.")
    ∧ (∀ n : String, EnvSpec.make (some n) = Except.ok ⟨n⟩)
    ∧ EnvSpec.identity_attributes = ["envName"] :=
  ⟨rfl, fun _ => rfl, rfl⟩

/-- C8: with SPACK_ROOT set to R, the descriptor path is exactly
R/var/spack/environments/envName/spack.yaml. -/
theorem get_spack_env_yaml_with_root (R envName : String) :
    get_spack_env_yaml (some R) envName
      = R ++ "/var/spack/environments/" ++ envName ++ "/spack.yaml" :=
  rfl

/-- C9 evaluation: source_path_attributes returns None, not an empty
iterable; iterating the returned value raises TypeError instead of yielding
no elements. -/
theorem source_path_attributes_returns_none :
    EnvSpec.source_path_attributes = none
    ∧ pyIterList EnvSpec.source_path_attributes = Except.error PyError.typeError
    ∧ EnvSpec.source_path_attributes ≠ some [] :=
  ⟨rfl, rfl, by decide⟩

/-- C10: when the shell command exits with status zero, run_cmd returns
None, because subprocess.run is invoked without capturing output and so
process.stdout is None. -/
theorem runCmd_returns_none (shellExitCode : String → Int) (cmd : String)
    (hExit : shellExitCode cmd = 0) :
    runCmd shellExitCode cmd = Except.ok none := by
  unfold runCmd subprocessRun
  rw [hExit]
  rfl

/-- C10 witness: a command whose exit status is zero makes run_cmd return
None. -/
theorem runCmd_returns_none_witness :
    runCmd (fun _ => 0) "echo hi" = Except.ok none :=
  runCmd_returns_none (fun _ => 0) "echo hi" rfl

/-- C4 counterexample: with SPACK_ROOT unset, path resolution does not fail;
it returns the malformed path with the literal text None as the root, and a
descriptor-locating call (record_hash) succeeds on that unvalidated path. -/
theorem spack_root_unset_no_failure :
    get_spack_env_yaml none "myenv" = "None/var/spack/environments/myenv/spack.yaml"
    ∧ record_hash
        (fun p => if p = "None/var/spack/environments/myenv/spack.yaml"
                  then some [104] else none)
        none "myenv" ⟨[]⟩ = Except.ok ⟨[104]⟩ :=
  ⟨rfl, rfl⟩

/-- C4 amended: when SPACK_ROOT is unset, get_spack_env_yaml proceeds
without any error and returns the malformed path
None/var/spack/environments/envName/spack.yaml, interpolating the Python
value None as the text None. -/
theorem get_spack_env_yaml_unset (envName : String) :
    get_spack_env_yaml none envName
      = "None" ++ "/var/spack/environments/" ++ envName ++ "/spack.yaml" :=
  rfl

/-- C6: when the descriptor file is absent from the filesystem at the
derived path, record_hash and report_software both fail with the
file-not-found condition: no result is produced, no silent empty report, no
silently unchanged accumulator. -/
theorem missing_descriptor_errors (fs : FileSystem)
    (parseYaml : List Nat → Except PyError Yaml)
    (spackRoot : Option String) (envName : String) (hashObject : HashObject)
    (hfs : fs (get_spack_env_yaml spackRoot envName) = none) :
    record_hash fs spackRoot envName hashObject = Except.error PyError.fileNotFound
    ∧ report_software fs parseYaml spackRoot envName
        = Except.error PyError.fileNotFound := by
  have hopen : pyOpenRead fs (get_spack_env_yaml spackRoot envName)
      = Except.error PyError.fileNotFound := by
    unfold pyOpenRead
    rw [hfs]
  constructor
  · unfold record_hash
    rw [hopen]
  · unfold report_software
    rw [hopen]

/-- C6 witness: on an empty filesystem both operations report the missing
descriptor file. -/
theorem missing_descriptor_errors_witness :
    record_hash (fun _ => none) none "myenv" ⟨[]⟩
        = Except.error PyError.fileNotFound
    ∧ report_software (fun _ => none) (fun _ => Except.ok Yaml.null) none "myenv"
        = Except.error PyError.fileNotFound :=
  missing_descriptor_errors (fun _ => none) (fun _ => Except.ok Yaml.null)
    none "myenv" ⟨[]⟩ rfl

/-- C5 counterexample: a descriptor whose single byte is a carriage return
(13) contributes the line feed byte (10) to the accumulator, not its raw
byte, and the descriptor whose single byte is already a line feed
contributes the same data, so changing that byte does not change the
contributed data. -/
theorem record_hash_newline_collision :
    record_hash (fun _ => some [13]) (some "/root") "myenv" ⟨[]⟩
        = Except.ok ⟨[10]⟩
    ∧ record_hash (fun _ => some [10]) (some "/root") "myenv" ⟨[]⟩
        = Except.ok ⟨[10]⟩
    ∧ (13 : Nat) ≠ 10 :=
  ⟨rfl, rfl, by decide⟩

/-- C5 amended: record_hash appends to the accumulator exactly the
newline-translated content of the descriptor file (text-mode read plus
UTF-8 re-encoding turns CRLF and lone CR into LF); the contribution is a
deterministic function of the file bytes, and on files containing no
carriage return it is exactly the raw bytes, so there any byte change
changes the contributed data. -/
theorem record_hash_contribution (fs : FileSystem) (spackRoot : Option String)
    (envName : String) (hashObject : HashObject) (bs : List Nat)
    (hfs : fs (get_spack_env_yaml spackRoot envName) = some bs) :
    record_hash fs spackRoot envName hashObject
        = Except.ok ⟨hashObject.data ++ universalNewlines bs⟩
    ∧ (13 ∉ bs → universalNewlines bs = bs) := by
  have hopen : pyOpenRead fs (get_spack_env_yaml spackRoot envName)
      = Except.ok bs := by
    unfold pyOpenRead
    rw [hfs]
  constructor
  · unfold record_hash
    rw [hopen]
    rfl
  · exact universalNewlines_of_no_cr bs

/-- C5 witness: a two-byte descriptor without carriage returns contributes
exactly its raw bytes to an empty accumulator. -/
theorem record_hash_contribution_witness :
    record_hash (fun _ => some [104, 105]) (some "/root") "myenv" ⟨[]⟩
        = Except.ok ⟨[104, 105]⟩
    ∧ (13 ∉ ([104, 105] : List Nat) → universalNewlines [104, 105] = [104, 105]) := by
  have h := record_hash_contribution (fun _ => some [104, 105]) (some "/root")
    "myenv" ⟨[]⟩ [104, 105] rfl
  exact ⟨h.1.trans rfl, h.2⟩

/-- Monadic map of the str coercion over a list of YAML strings recovers
exactly those strings. -/
theorem mapM_pyAsStr_strs (specs : List String) :
    (specs.map Yaml.str).mapM pyAsStr = Except.ok specs := by
  induction specs with
  | nil => rfl
  | cons s rest ih =>
    rw [List.map_cons, List.mapM_cons, ih]
    rfl

/-- C1: for every descriptor whose top-level spack mapping carries a specs
list of strings, report_software returns exactly the regex matches in list
order via filterMap, one entry per matching string, silently skipping
non-matching strings with no error and no partial entry and keeping
duplicates; the example list with gcc, zlib and boost yields exactly the two
versioned entries, and a duplicated spec string yields its entry twice. -/
theorem report_software_matches (fs : FileSystem)
    (parseYaml : List Nat → Except PyError Yaml)
    (spackRoot : Option String) (envName : String) (bs : List Nat)
    (outer inner : List (String × Yaml)) (specs : List String)
    (hfs : fs (get_spack_env_yaml spackRoot envName) = some bs)
    (hparse : parseYaml (universalNewlines bs) = Except.ok (Yaml.map outer))
    (hOuter : outer.lookup "spack" = some (Yaml.map inner))
    (hInner : inner.lookup "specs" = some (Yaml.list (specs.map Yaml.str))) :
    report_software fs parseYaml spackRoot envName
        = Except.ok (specs.filterMap SoftwareReport.ofSpec)
    ∧ ["gcc@11.2.0", "zlib@1.2.11", "boost"].filterMap SoftwareReport.ofSpec
        = [⟨"gcc", "11.2.0"⟩, ⟨"zlib", "1.2.11"⟩]
    ∧ ["gcc@11.2.0", "gcc@11.2.0"].filterMap SoftwareReport.ofSpec
        = [⟨"gcc", "11.2.0"⟩, ⟨"gcc", "11.2.0"⟩] := by
  have hopen : pyOpenRead fs (get_spack_env_yaml spackRoot envName)
      = Except.ok bs := by
    unfold pyOpenRead
    rw [hfs]
  refine ⟨?_, by decide, by decide⟩
  unfold report_software
  rw [hopen]
  dsimp only
  rw [hparse]
  dsimp only
  unfold extract_reports
  simp only [pyGet, hOuter, hInner, Option.getD_some, pyIterYaml,
    mapM_pyAsStr_strs]

/-- C1 witness: the example descriptor with specs gcc, zlib and boost
produces exactly the gcc and zlib entries. -/
theorem report_software_matches_witness :
    report_software
      (fun _ => some [])
      (fun _ => Except.ok (Yaml.map [("spack", Yaml.map [("specs",
        Yaml.list [Yaml.str "gcc@11.2.0", Yaml.str "zlib@1.2.11",
          Yaml.str "boost"])])]))
      (some "/root") "myenv"
      = Except.ok [⟨"gcc", "11.2.0"⟩, ⟨"zlib", "1.2.11"⟩] := by
  have h := report_software_matches
    (fun _ => some [])
    (fun _ => Except.ok (Yaml.map [("spack", Yaml.map [("specs",
      Yaml.list [Yaml.str "gcc@11.2.0", Yaml.str "zlib@1.2.11",
        Yaml.str "boost"])])]))
    (some "/root") "myenv" []
    [("spack", Yaml.map [("specs",
      Yaml.list [Yaml.str "gcc@11.2.0", Yaml.str "zlib@1.2.11",
        Yaml.str "boost"])])]
    [("specs", Yaml.list [Yaml.str "gcc@11.2.0", Yaml.str "zlib@1.2.11",
      Yaml.str "boost"])]
    ["gcc@11.2.0", "zlib@1.2.11", "boost"]
    rfl rfl rfl rfl
  exact h.1.trans (congrArg Except.ok h.2.1)

/-- Every position of a zero-replicate table reads zero. -/
theorem getD_replicate_zero (k i : Nat) :
    (List.replicate k (0 : Nat)).getD i 0 = 0 := by
  induction k generalizing i with
  | zero => cases i <;> rfl
  | succ k ih =>
    cases i with
    | zero => rfl
    | succ i => exact ih i

/-- The run-once invariant holds in the initial state. -/
theorem onceInv_initial : OnceInv initialOnceState :=
  ⟨rfl, rfl⟩

/-- The run-once invariant is preserved by every event. -/
theorem onceInv_step (s : OnceState) (e : SpackEvent) (h : OnceInv s) :
    OnceInv (stepEnv s e) := by
  obtain ⟨hflag, hruns⟩ := h
  cases e with
  | createHandle =>
    cases hn : s.numHandles with
    | zero =>
      have hflag0 : s.checkDone = false := by
        rw [hflag, hn]
        decide
      have hruns0 : s.runs = [] := by
        rw [hruns, hn]
        rfl
      constructor
      · simp [stepEnv, callCheck, hflag0, hruns0, hn]
      · simp [stepEnv, callCheck, hflag0, hruns0, hn, onceRuns]
    | succ m =>
      have hflag1 : s.checkDone = true := by
        rw [hflag, hn]
        simp
      have hruns1 : s.runs = 1 :: List.replicate m 0 := by
        rw [hruns, hn]
        rfl
      have hstep : stepEnv s SpackEvent.createHandle
          = { s with numHandles := s.numHandles + 1, runs := s.runs ++ [0] } := by
        simp [stepEnv, callCheck, hflag1]
      rw [hstep]
      constructor
      · show s.checkDone = decide (0 < s.numHandles + 1)
        rw [hflag1]
        simp
      · show s.runs ++ [0] = onceRuns (s.numHandles + 1)
        rw [hruns1, hn, onceRuns, List.cons_append, ← List.replicate_succ']
  | invokeCheck i =>
    by_cases hi : i < s.numHandles
    · have hpos : 0 < s.numHandles := Nat.lt_of_le_of_lt (Nat.zero_le i) hi
      have hflag1 : s.checkDone = true := by
        rw [hflag]
        exact decide_eq_true hpos
      have hstep : stepEnv s (SpackEvent.invokeCheck i) = s := by
        simp [stepEnv, hi, callCheck, hflag1]
      rw [hstep]
      exact ⟨hflag, hruns⟩
    · have hstep : stepEnv s (SpackEvent.invokeCheck i) = s := by
        simp [stepEnv, hi]
      rw [hstep]
      exact ⟨hflag, hruns⟩

/-- The run-once invariant holds at the end of every event trace. -/
theorem onceInv_runEnv (events : List SpackEvent) : OnceInv (runEnv events) := by
  suffices hgen : ∀ (s : OnceState), OnceInv s → OnceInv (events.foldl stepEnv s) by
    exact hgen initialOnceState onceInv_initial
  induction events with
  | nil => exact fun s hs => hs
  | cons e rest ih => exact fun s hs => ih (stepEnv s e) (onceInv_step s e hs)

/-- C3 counterexample: constructing two handles of the same kind leaves the
second handle with zero executions of the check body, so the body does not
run exactly once per handle instance. -/
theorem check_second_handle_never_runs :
    (runEnv [SpackEvent.createHandle, SpackEvent.createHandle]).numHandles = 2
    ∧ (runEnv [SpackEvent.createHandle, SpackEvent.createHandle]).runs.getD 1 0 = 0
    ∧ ¬ (∀ i, i < (runEnv [SpackEvent.createHandle, SpackEvent.createHandle]).numHandles →
          (runEnv [SpackEvent.createHandle, SpackEvent.createHandle]).runs.getD i 0 = 1) := by
  refine ⟨rfl, rfl, ?_⟩
  intro hall
  have h1 := hall 1 (by decide)
  exact absurd h1 (by decide)

/-- C3 amended: over every trace of handle constructions and check
invocations, the check body runs at most once per handle instance and
exactly once per environment kind as soon as any handle exists: the run
table has one entry per handle, no entry exceeds one, and the total number
of executions is zero with no handles and one otherwise. -/
theorem check_runs_once_per_kind (events : List SpackEvent) :
    (runEnv events).runs.length = (runEnv events).numHandles
    ∧ (∀ i : Nat, (runEnv events).runs.getD i 0 ≤ 1)
    ∧ (runEnv events).runs.sum
        = (if (runEnv events).numHandles = 0 then 0 else 1) := by
  obtain ⟨hflag, hruns⟩ := onceInv_runEnv events
  rw [hruns]
  cases hn : (runEnv events).numHandles with
  | zero =>
    refine ⟨rfl, ?_, rfl⟩
    intro i
    cases i <;> simp [onceRuns, List.getD]
  | succ m =>
    refine ⟨?_, ?_, ?_⟩
    · simp [onceRuns]
    · intro i
      cases i with
      | zero => simp [onceRuns, List.getD]
      | succ i =>
        show (List.replicate m (0 : Nat)).getD i 0 ≤ 1
        rw [getD_replicate_zero m i]
        exact Nat.zero_le 1
    · simp [onceRuns]
